import Mathlib

/-!
Verification of the IRC matchmaking layer of CruceGame.

The development shallowly embeds the two revisions of the irc module found in
the repository:

* the complete revision (message parsing, connect, join/leave, toggle,
  getAvailableRoom, createRoom, getNames, invite) — embedded under the plain
  source names `irc_...` and `getNextMessage`;
* the earlier revision of irc.c, whose `irc_toggleRoomStatus` is a pure
  fetch-and-classify (returning 0 for an unset topic, 1 for WAITING, 2 for
  PLAYING) and never mutates a topic — embedded under `v2_...` names where the
  two revisions differ.

Network I/O is modelled by an explicit environment/state record: the state
carries the return codes the transport will produce for the next sends and the
(code, line) pairs the next reads will yield, plus a trace of the transport
operations issued so far.  C undefined behaviour (uninitialised pointer use,
negative sizes passed to strncpy, strlen of NULL) is made explicit through a
dedicated constructor of the result type of the affected operation.
-/

/-- Error code NO_ERROR of errors.h: the code itself relies on it being 0
(for example `!isUsed` in irc_getAvailableRoom and `readRet < 0` checks). -/
def NO_ERROR : Int := 0

/-- Error code PARAMETER_OUT_OF_RANGE, value -23 as defined in irc.c. -/
def PARAMETER_OUT_OF_RANGE : Int := -23

/-- Error code LEAVE_ROOM_ERROR, value -24 as defined in irc.c. -/
def LEAVE_ROOM_ERROR : Int := -24

/-- Modelled from the spec: errors.h is not under src/, so the numeric value of
TOGGLE_ROOM_STATUS_ERROR is unknown; it is a distinct nonzero error code
(ToggleStatusError of the spec taxonomy). -/
def TOGGLE_ROOM_STATUS_ERROR : Int := -25

/-- Character for a decimal digit d in 0..9. -/
def digitChar (d : Nat) : Char := Char.ofNat (48 + d)

/-- Modelled from the spec: ROOM_FORMAT lives in irc.h which is not under
src/; per the joinRoom doc comment and the spec it is "#cruce-gameXXX" with
the room number zero padded to three digits (%03d).  This model gives the
three low decimal digits, which agrees with %03d on the validated range
0..999 (the only ids the code ever formats). -/
def pad3 (n : Nat) : String :=
  String.mk [digitChar (n / 100 % 10), digitChar (n / 10 % 10), digitChar (n % 10)]

/-- Modelled from the spec: channel name of a room id, configured room prefix
plus the zero padded id. -/
def roomName (n : Int) : String := "#cruce-game" ++ pad3 n.toNat

/-- Modelled from the spec: LOBBY_CHANNEL is configured in irc.h, not under
src/; the connect scenario of the spec uses "#cruce-lobby". -/
def LOBBY_CHANNEL : String := "#cruce-lobby"

/-- Transport operations, recorded in issuance order. -/
inductive NetOp
  | conn
  | send (payload : String)
  | readLine
deriving DecidableEq

/-- State of the modelled transport: the return code a network_connect will
produce, the codes the next network_send calls will return (NO_ERROR once the
list is exhausted), the (code, line) results of the next reads (NO_ERROR and
an empty line once exhausted), and the trace of operations issued so far. -/
structure NetState where
  connectRet : Int
  sendRets : List Int
  reads : List (Int × String)
  trace : List NetOp
deriving DecidableEq

/-- Payloads of the send operations of a trace, in order. -/
def NetState.sent (s : NetState) : List String :=
  s.trace.filterMap fun op =>
    match op with
    | NetOp.send p => some p
    | _ => none

/-- Model of network_connect: records the operation, returns the environment
provided code. -/
def network_connect (s : NetState) : Int × NetState :=
  (s.connectRet, { s with trace := s.trace ++ [NetOp.conn] })

/-- Model of network_send: records the payload, returns the next environment
provided code. -/
def network_send (payload : String) (s : NetState) : Int × NetState :=
  match s.sendRets with
  | [] => (NO_ERROR, { s with trace := s.trace ++ [NetOp.send payload] })
  | r :: rs =>
    (r, { s with sendRets := rs, trace := s.trace ++ [NetOp.send payload] })

/-- Model of network_read: records the operation, yields the next environment
provided (code, buffer) pair. -/
def network_read (s : NetState) : (Int × String) × NetState :=
  match s.reads with
  | [] => ((NO_ERROR, ""), { s with trace := s.trace ++ [NetOp.readLine] })
  | r :: rs =>
    (r, { s with reads := rs, trace := s.trace ++ [NetOp.readLine] })

/-- Model of strstr as a Boolean test: true iff the needle occurs as a
contiguous substring of the haystack (an empty needle always matches,
as strstr does). -/
def strstrB (hay needle : String) : Bool :=
  (List.range (hay.data.length + 1)).any fun i =>
    (hay.data.drop i).take needle.data.length == needle.data

/-- Model of strchr as an index search: index of the first occurrence of the
character, none when strchr would return NULL. -/
def strchrIdx (s : String) (c : Char) : Option Nat :=
  List.findIdx? (fun x => x == c) s.data

/-- Index of the first space at or after position start, none when there is
no further space (strchr from an offset). -/
def firstSpaceFrom (cs : List Char) (start : Nat) : Option Nat :=
  match List.findIdx? (fun c => c == ' ') (cs.drop start) with
  | none => none
  | some k => some (start + k)

/-- Structured IRC message of getNextMessage; the field pfx models the C
field named prefix (a Lean keyword). -/
structure IrcMessage where
  pfx : String
  command : String
  trailing : String
deriving DecidableEq

/-- Result of parsing one raw line: a message, or undefined behaviour of the
C routine (uninitialised prefixEnd when the line does not begin with a colon,
strchr returning NULL, or a negative length passed to strncpy). -/
inductive ParseResult
  | ok (m : IrcMessage)
  | ub
deriving DecidableEq

/-- Model of the parsing part of getNextMessage in the complete revision: the
line network_readLine stored in str is parsed by pointer arithmetic.  With s
the index of the first space and t the index of the next space after s:
prefix is copied from index 1 with length (s-1) - 0 - 1, command from index
s+1 with length (t-1) - (s+1) + 1, trailing from index t+1 with length
strlen - 1 (the C code strips one terminating character).  Every path on
which the C code reads the uninitialised prefixEnd, calls strchr that returns
NULL, or passes a negative length to strncpy is mapped to ub. -/
def getNextMessage (str : List Char) : ParseResult :=
  if str.head? ≠ some ':' then ParseResult.ub
  else
    match firstSpaceFrom str 0 with
    | none => ParseResult.ub
    | some s =>
      if s < 2 then ParseResult.ub
      else
        match firstSpaceFrom str (s + 1) with
        | none => ParseResult.ub
        | some t =>
          if str.length < t + 2 then ParseResult.ub
          else ParseResult.ok
            { pfx := ((str.drop 1).take (s - 2)).asString
              command := ((str.drop (s + 1)).take (t - s - 1)).asString
              trailing := ((str.drop (t + 1)).take (str.length - (t + 1) - 1)).asString }

/-- Parsing of a raw line given as a string. -/
def parseLine (s : String) : ParseResult := getNextMessage s.data

/-- Model of irc_connect of the complete revision: validates the nickname
length first (1..9, else PARAMETER_OUT_OF_RANGE before any transport call),
opens the transport, then issues the whole handshake as one network_send of
the concatenation "PASS *\r\n" ++ NICK ++ USER ++ JOIN (the C code sprintfs
the four commands into one buffer and sends it with its exact length). -/
def irc_connect (name : String) (s : NetState) : Int × NetState :=
  if name.length = 0 ∨ 9 < name.length then (PARAMETER_OUT_OF_RANGE, s)
  else
    let pc := network_connect s
    if pc.1 ≠ NO_ERROR then pc
    else
      let commandSequence :=
        "PASS *\r\n" ++ ("NICK " ++ name ++ "\r\n")
          ++ ("USER " ++ name ++ " 8 * :" ++ name ++ "\r\n")
          ++ ("JOIN " ++ LOBBY_CHANNEL ++ "\r\n")
      let ps := network_send commandSequence pc.2
      if ps.1 ≠ NO_ERROR then ps else (NO_ERROR, ps.2)

/-- Model of irc_joinRoom: validates the id, sends JOIN, and only on a
successful send assigns currentRoom (returned as the middle component). -/
def irc_joinRoom (roomNumber : Int) (room : Int) (s : NetState) :
    Int × Int × NetState :=
  if roomNumber < 0 ∨ 999 < roomNumber then (PARAMETER_OUT_OF_RANGE, room, s)
  else
    let pj := network_send ("JOIN " ++ roomName roomNumber ++ "\r\n") s
    if pj.1 ≠ NO_ERROR then (pj.1, room, pj.2)
    else (NO_ERROR, roomNumber, pj.2)

/-- Model of irc_leaveRoom: fails when currentRoom is negative, sends PART,
and only on a successful send resets currentRoom to -1. -/
def irc_leaveRoom (room : Int) (s : NetState) : Int × Int × NetState :=
  if room < 0 then (LEAVE_ROOM_ERROR, room, s)
  else
    let pp := network_send ("PART " ++ roomName room ++ "\r\n") s
    if pp.1 ≠ NO_ERROR then (pp.1, room, pp.2)
    else (NO_ERROR, -1, pp.2)

/-- Model of irc_toggleRoomStatus of the complete revision: validates the id,
sends the TOPIC fetch, reads one line; a response containing WAITING makes it
send TOPIC PLAYING and return NO_ERROR, a response containing PLAYING makes
it send TOPIC WAITING and return NO_ERROR (the code ignores the return code
of that second send), and any other response — including the no-topic marker
— returns TOGGLE_ROOM_STATUS_ERROR with no further send. -/
def irc_toggleRoomStatus (roomNumber : Int) (s : NetState) : Int × NetState :=
  if roomNumber < 0 ∨ 999 < roomNumber then (PARAMETER_OUT_OF_RANGE, s)
  else
    let pf := network_send ("TOPIC " ++ roomName roomNumber ++ "\r\n") s
    if pf.1 ≠ NO_ERROR then pf
    else
      let pr := network_read pf.2
      if pr.1.1 < 0 then (pr.1.1, pr.2)
      else
        if strstrB pr.1.2 "WAITING" then
          let pn := network_send ("TOPIC " ++ roomName roomNumber ++ " PLAYING\r\n") pr.2
          (NO_ERROR, pn.2)
        else if strstrB pr.1.2 "PLAYING" then
          let pn := network_send ("TOPIC " ++ roomName roomNumber ++ " WAITING\r\n") pr.2
          (NO_ERROR, pn.2)
        else (TOGGLE_ROOM_STATUS_ERROR, pr.2)

/-- Loop of irc_getAvailableRoom: the fuel argument counts the remaining
iterations of the C for loop (1000 in total, i running 0..999); the loop
stops at the first i whose irc_toggleRoomStatus call returns 0. -/
def availLoop : Nat → Nat → NetState → Int × NetState
  | 0, _, s => (-1, s)
  | k + 1, i, s =>
    let pt := irc_toggleRoomStatus (Int.ofNat i) s
    if pt.1 = 0 then (Int.ofNat i, pt.2)
    else availLoop k (i + 1) pt.2

/-- Model of irc_getAvailableRoom of the complete revision: scans ids 0..999
with irc_toggleRoomStatus and returns the first id whose call returned 0
(`!isUsed` in the C code), -1 when no call returned 0. -/
def irc_getAvailableRoom (s : NetState) : Int × NetState := availLoop 1000 0 s

/-- Model of irc_createRoom (identical in both revisions): first calls
irc_getAvailableRoom, returns -1 when it yielded -1, then returns -1 when
currentRoom is already set, otherwise sends JOIN then TOPIC WAITING and on
success returns the room id; currentRoom is never assigned. -/
def irc_createRoom (room : Int) (s : NetState) : Int × Int × NetState :=
  let pg := irc_getAvailableRoom s
  if pg.1 = -1 then (-1, room, pg.2)
  else if room ≠ -1 then (-1, room, pg.2)
  else
    let pj := network_send ("JOIN " ++ roomName pg.1 ++ "\r\n") pg.2
    if pj.1 ≠ NO_ERROR then (pj.1, room, pj.2)
    else
      let pt := network_send ("TOPIC " ++ roomName pg.1 ++ " WAITING\r\n") pj.2
      if pt.1 ≠ NO_ERROR then (pt.1, room, pt.2)
      else (pg.1, room, pt.2)

/-- Result of irc_getNames: the returned heap string, NULL (not in a room,
send failure, read failure), or undefined behaviour (strchr found no colon,
so the C code calls strlen on NULL). -/
inductive NamesResult
  | ok (names : String)
  | null
  | ub
deriving DecidableEq

/-- Send-and-parse part of irc_getNames: sends the NAMES command, reads one
line, finds the first colon and returns the text from that colon on (strcpy
from the strchr result, so the colon itself is included); no colon is
undefined behaviour in the C code. -/
def namesQuery (namesCommand : String) (s : NetState) : NamesResult × NetState :=
  let ps := network_send namesCommand s
  if ps.1 ≠ NO_ERROR then (NamesResult.null, ps.2)
  else
    let pr := network_read ps.2
    if pr.1.1 < 0 then (NamesResult.null, pr.2)
    else
      match strchrIdx pr.1.2 ':' with
      | none => (NamesResult.ub, pr.2)
      | some i => (NamesResult.ok ((pr.1.2.data.drop i).asString), pr.2)

/-- Model of irc_getNames: for the current room it fails (NULL) when
currentRoom is the -1 sentinel and otherwise queries the room channel; for
the lobby it queries LOBBY_CHANNEL. -/
def irc_getNames (isRoom : Bool) (room : Int) (s : NetState) :
    NamesResult × NetState :=
  if isRoom then
    if room = -1 then (NamesResult.null, s)
    else namesQuery ("NAMES " ++ roomName room ++ "\r\n") s
  else namesQuery ("NAMES " ++ LOBBY_CHANNEL ++ "\r\n") s

/-- Result of irc_invite: a return code, or propagated undefined behaviour of
irc_getNames. -/
inductive InviteResult
  | ret (code : Int)
  | ub
deriving DecidableEq

/-- Model of irc_invite: -1 when currentRoom is the -1 sentinel, -2 when
irc_getNames returned NULL, -3 when strstr does not find the nickname as a
substring of the returned names string, otherwise sends the INVITE command
and returns its error code on failure and 0 on success. -/
def irc_invite (nickname : String) (room : Int) (s : NetState) :
    InviteResult × NetState :=
  if room = -1 then (InviteResult.ret (-1), s)
  else
    match irc_getNames false room s with
    | (NamesResult.null, s1) => (InviteResult.ret (-2), s1)
    | (NamesResult.ub, s1) => (InviteResult.ub, s1)
    | (NamesResult.ok channelNames, s1) =>
      if strstrB channelNames nickname = false then (InviteResult.ret (-3), s1)
      else
        let pv := network_send
          ("INVITE " ++ roomName room ++ " " ++ nickname ++ "\r\n") s1
        if pv.1 ≠ NO_ERROR then (InviteResult.ret pv.1, pv.2)
        else (InviteResult.ret 0, pv.2)

/-- Model of irc_toggleRoomStatus of the earlier revision of irc.c: no range
validation, sends the TOPIC fetch, reads one line and classifies it without
any mutation: 0 for the no-topic marker, 1 for WAITING, 2 for PLAYING, -1
otherwise. -/
def v2_irc_toggleRoomStatus (roomNumber : Int) (s : NetState) : Int × NetState :=
  let pf := network_send ("TOPIC " ++ roomName roomNumber ++ "\r\n") s
  if pf.1 ≠ NO_ERROR then pf
  else
    let pr := network_read pf.2
    if pr.1.1 ≠ NO_ERROR then (pr.1.1, pr.2)
    else
      if strstrB pr.1.2 ":No topic is set" then (0, pr.2)
      else if strstrB pr.1.2 "WAITING" then (1, pr.2)
      else if strstrB pr.1.2 "PLAYING" then (2, pr.2)
      else (-1, pr.2)

/-- Loop of irc_getAvailableRoom over the earlier revision classifier. -/
def v2_availLoop : Nat → Nat → NetState → Int × NetState
  | 0, _, s => (-1, s)
  | k + 1, i, s =>
    let pt := v2_irc_toggleRoomStatus (Int.ofNat i) s
    if pt.1 = 0 then (Int.ofNat i, pt.2)
    else v2_availLoop k (i + 1) pt.2

/-- Model of irc_getAvailableRoom of the earlier revision of irc.c: same loop,
but over the fetch-and-classify irc_toggleRoomStatus, so it returns the first
id whose topic response contains the no-topic marker. -/
def v2_irc_getAvailableRoom (s : NetState) : Int × NetState := v2_availLoop 1000 0 s

/-- Modelled from the spec: the whole space separated tokens of a names list,
used to state the exact token membership the spec requires of invite. -/
def specTokensAux : List Char → List Char → List String
  | [], acc => [acc.reverse.asString]
  | c :: cs, acc =>
    if c = ' ' then acc.reverse.asString :: specTokensAux cs []
    else specTokensAux cs (c :: acc)

/-- Modelled from the spec: the nonempty space separated tokens of a string. -/
def specTokens (s : String) : List String :=
  (specTokensAux s.data []).filter (fun t => t ≠ "")

/-- Helper: irc_createRoom returns the middle (currentRoom) component
unchanged on every path — the C function never assigns currentRoom. -/
theorem createRoom_keeps_room (room : Int) (s : NetState) :
    (irc_createRoom room s).2.1 = room := by
  simp only [irc_createRoom]
  split
  · rfl
  · split
    · rfl
    · split
      · rfl
      · split
        · rfl
        · rfl

/-- C1: on a fetched topic response containing the no-topic marker,
irc_toggleRoomStatus of the complete revision returns
TOGGLE_ROOM_STATUS_ERROR after the single fetch send (no Unset status, no
direct return of 0), while the earlier revision of irc.c — matching the doc
comment of the function, which promises 0 for a not-set topic — returns 0. -/
theorem toggleRoomStatus_no_topic_marker_divergence :
    (irc_toggleRoomStatus 0 ⟨0, [], [(0, ":No topic is set")], []⟩).1 =
      TOGGLE_ROOM_STATUS_ERROR ∧
    (irc_toggleRoomStatus 0 ⟨0, [], [(0, ":No topic is set")], []⟩).2.sent =
      ["TOPIC #cruce-game000\r\n"] ∧
    (v2_irc_toggleRoomStatus 0 ⟨0, [], [(0, ":No topic is set")], []⟩).1 = 0 := by
  decide

/-- C2: with room 0 answering the no-topic marker (free) and room 1 answering
WAITING (used), irc_getAvailableRoom of the complete revision returns 1 — the
first used room — and sends a TOPIC mutation during the scan, contradicting
its own doc comment (return the index of a free channel); the earlier
revision of the loop returns 0, the smallest Unset id, with no mutation. -/
theorem getAvailableRoom_returns_used_room :
    (irc_getAvailableRoom ⟨0, [], [(0, ":No topic is set"), (0, "WAITING")], []⟩).1 = 1 ∧
    (irc_getAvailableRoom ⟨0, [], [(0, ":No topic is set"), (0, "WAITING")], []⟩).2.sent =
      ["TOPIC #cruce-game000\r\n", "TOPIC #cruce-game001\r\n",
       "TOPIC #cruce-game001 PLAYING\r\n"] ∧
    (v2_irc_getAvailableRoom ⟨0, [], [(0, ":No topic is set"), (0, "WAITING")], []⟩).1 = 0 := by
  decide

/-- C3 counterexample: with the session already in room 3, irc_createRoom
performs the probe traffic of irc_getAvailableRoom before failing (so the
AlreadyInRoom failure is not raised before any probing), and with no room
joined a fully successful irc_createRoom returns id 0 yet leaves currentRoom
at -1 instead of setting it to 0. -/
theorem createRoom_claim_counterexample :
    ((irc_createRoom 3 ⟨0, [], [(0, "WAITING")], []⟩).1 = -1 ∧
      (irc_createRoom 3 ⟨0, [], [(0, "WAITING")], []⟩).2.2.sent =
        ["TOPIC #cruce-game000\r\n", "TOPIC #cruce-game000 PLAYING\r\n"]) ∧
    ((irc_createRoom (-1) ⟨0, [], [(0, "WAITING")], []⟩).1 = 0 ∧
      (irc_createRoom (-1) ⟨0, [], [(0, "WAITING")], []⟩).2.1 = -1) := by
  decide

/-- C3 amended: irc_createRoom never mutates currentRoom; whenever the probe
found no free room (irc_getAvailableRoom yielded -1) it returns -1, whatever
the session state; whenever the session is already in a room it returns -1
(after the probing that irc_getAvailableRoom already performed); and on the
success path (no room joined, a probe result other than -1, sends succeeding)
it returns the probed id and sends JOIN then TOPIC WAITING. -/
theorem createRoom_probe_first_no_room_mutation (room n : Int) (s s1 : NetState)
    (hga : irc_getAvailableRoom s = (n, s1)) :
    (irc_createRoom room s).2.1 = room ∧
    (n = -1 → (irc_createRoom room s).1 = -1) ∧
    (room ≠ -1 → (irc_createRoom room s).1 = -1) ∧
    (room = -1 → n ≠ -1 → s1.sendRets = [] →
      (irc_createRoom room s).1 = n ∧
      (irc_createRoom room s).2.2.trace = s1.trace ++
        [NetOp.send ("JOIN " ++ roomName n ++ "\r\n"),
         NetOp.send ("TOPIC " ++ roomName n ++ " WAITING\r\n")]) := by
  refine ⟨createRoom_keeps_room room s, ?_, ?_, ?_⟩
  · intro hn
    subst hn
    simp [irc_createRoom, hga]
  · intro hr
    by_cases hn : n = -1
    · subst hn
      simp [irc_createRoom, hga]
    · simp [irc_createRoom, hga, hn, hr]
  · intro hr hn hsr
    subst hr
    simp [irc_createRoom, hga, hn, network_send, hsr, NO_ERROR]

/-- Helper: against an exhausted transport (no pending send failures, no
pending reads, so every read yields an empty buffer) a toggle call never
returns 0 — the empty response contains neither marker — and the call leaves
the pending send and read lists empty. -/
theorem toggle_exhausted_ne_zero (n : Int) (s : NetState)
    (hsr : s.sendRets = []) (hrd : s.reads = []) :
    (irc_toggleRoomStatus n s).1 ≠ 0 ∧
    (irc_toggleRoomStatus n s).2.sendRets = [] ∧
    (irc_toggleRoomStatus n s).2.reads = [] := by
  have hW : strstrB "" "WAITING" = false := by decide
  have hP : strstrB "" "PLAYING" = false := by decide
  unfold irc_toggleRoomStatus
  by_cases hv : n < 0 ∨ 999 < n
  · rw [if_pos hv]
    refine ⟨?_, hsr, hrd⟩
    show PARAMETER_OUT_OF_RANGE ≠ 0
    decide
  · rw [if_neg hv]
    simp [network_send, network_read, hsr, hrd, NO_ERROR, hW, hP,
      TOGGLE_ROOM_STATUS_ERROR]

/-- Helper: on an exhausted transport the scan loop always runs out of fuel
and returns -1, preserving the empty pending lists. -/
theorem availLoop_exhausted : ∀ (k i : Nat) (s : NetState),
    s.sendRets = [] → s.reads = [] →
    (availLoop k i s).1 = -1 ∧ (availLoop k i s).2.sendRets = [] ∧
      (availLoop k i s).2.reads = []
  | 0, _, s, hsr, hrd => ⟨rfl, hsr, hrd⟩
  | k + 1, i, s, hsr, hrd => by
    have ht := toggle_exhausted_ne_zero (Int.ofNat i) s hsr hrd
    simp only [availLoop]
    rw [if_neg ht.1]
    exact availLoop_exhausted k (i + 1) _ ht.2.1 ht.2.2

/-- C3 witness: concrete instantiations of the amended createRoom theorem —
the success path on an environment in which room 0 answers WAITING, and the
no-free-room path for a session not in a room on an exhausted environment in
which every toggle of the scan fails, so irc_getAvailableRoom yields -1. -/
theorem createRoom_probe_first_no_room_mutation_witness :
    ((irc_createRoom (-1) ⟨0, [], [(0, "WAITING")], []⟩).1 = 0 ∧
      (irc_createRoom (-1) ⟨0, [], [(0, "WAITING")], []⟩).2.1 = -1) ∧
    (irc_createRoom (-1) ⟨0, [], [], []⟩).1 = -1 := by
  have h := createRoom_probe_first_no_room_mutation (-1) 0
      ⟨0, [], [(0, "WAITING")], []⟩
      ⟨0, [], [],
        [NetOp.send "TOPIC #cruce-game000\r\n", NetOp.readLine,
         NetOp.send "TOPIC #cruce-game000 PLAYING\r\n"]⟩
      (by decide)
  have hga2 : (irc_getAvailableRoom ⟨0, [], [], []⟩).1 = -1 :=
    (availLoop_exhausted 1000 0 ⟨0, [], [], []⟩ rfl rfl).1
  have hempty : irc_getAvailableRoom ⟨0, [], [], []⟩ =
      (-1, (irc_getAvailableRoom ⟨0, [], [], []⟩).2) := by
    rw [← hga2]
  have h2 := createRoom_probe_first_no_room_mutation (-1) (-1)
      ⟨0, [], [], []⟩ (irc_getAvailableRoom ⟨0, [], [], []⟩).2 hempty
  exact ⟨⟨(h.2.2.2 rfl (by decide) rfl).1, h.1⟩, h2.2.1 rfl⟩

/-- C4 counterexample: with room 0 joined and the lobby NAMES response
"resp :alice bob", irc_invite "ali" succeeds (returns 0, so the INVITE is
sent) although "ali" is not a whole space separated token of the names list
— strstr matches it inside "alice". -/
theorem invite_claim_counterexample :
    (irc_invite "ali" 0 ⟨0, [], [(0, "resp :alice bob")], []⟩).1 =
      InviteResult.ret 0 ∧
    ("ali" ∈ specTokens "alice bob") = False := by
  decide

/-- C4 amended: irc_invite fails with -1 when no room is joined; otherwise,
given that irc_getNames on the lobby returned the names string, invite
succeeds exactly when the nickname occurs as a substring (strstr) of that
string, fails with -3 when it does not, and on success sends
INVITE <channel(currentRoom)> <nickname>. -/
theorem invite_substring_match_behavior (nickname : String) (room : Int)
    (s s1 : NetState) (names : String)
    (hn : irc_getNames false room s = (NamesResult.ok names, s1))
    (hsr : s1.sendRets = []) :
    (room = -1 → (irc_invite nickname room s).1 = InviteResult.ret (-1)) ∧
    (room ≠ -1 →
      ((irc_invite nickname room s).1 = InviteResult.ret 0 ↔
        strstrB names nickname = true) ∧
      (strstrB names nickname = false →
        (irc_invite nickname room s).1 = InviteResult.ret (-3)) ∧
      (strstrB names nickname = true →
        (irc_invite nickname room s).2.sent = s1.sent ++
          ["INVITE " ++ roomName room ++ " " ++ nickname ++ "\r\n"])) := by
  constructor
  · intro hr
    simp [irc_invite, hr]
  · intro hr
    cases hb : strstrB names nickname
    · simp [irc_invite, hr, hn, hb]
    · simp [irc_invite, hr, hn, hb, network_send, hsr, NO_ERROR,
        NetState.sent, List.filterMap_append]

/-- C4 witness: concrete instantiation of the amended invite theorem, with a
nickname that is a whole token. -/
theorem invite_substring_match_behavior_witness :
    (irc_invite "bob" 0 ⟨0, [], [(0, "resp :alice bob")], []⟩).1 =
      InviteResult.ret 0 := by
  have h := invite_substring_match_behavior "bob" 0
      ⟨0, [], [(0, "resp :alice bob")], []⟩
      ⟨0, [], [], [NetOp.send "NAMES #cruce-lobby\r\n", NetOp.readLine]⟩
      ":alice bob" (by decide) rfl
  exact ((h.2 (by decide)).1).mpr (by decide)

/-- C5 counterexample: on the raw line of the claim (read with its
terminating newline), the parser does not produce prefix nick!user@host,
command PRIVMSG, trailing hello there. -/
theorem parse_privmsg_claim_counterexample :
    parseLine ":nick!user@host PRIVMSG #room :hello there\n" ≠
      ParseResult.ok
        { pfx := "nick!user@host", command := "PRIVMSG",
          trailing := "hello there" } := by
  decide

/-- C5 amended: on that raw line the parser yields prefix nick!user@hos (the
length arithmetic drops the last prefix character), command PRIVMSG, and
trailing "#room :hello there" (everything after the first space following the
command, with the newline stripped — the middle parameter is folded into the
trailing text). -/
theorem parse_privmsg_actual_result :
    parseLine ":nick!user@host PRIVMSG #room :hello there\n" =
      ParseResult.ok
        { pfx := "nick!user@hos", command := "PRIVMSG",
          trailing := "#room :hello there" } := by
  decide

/-- C6: irc_connect validates the nickname length before any transport call
and fails with PARAMETER_OUT_OF_RANGE for the empty name and for any name
longer than 9 characters, returning the transport state untouched — so no
connect and no send is issued. -/
theorem connect_rejects_bad_nickname_without_io (name : String) (s : NetState)
    (h : name.length = 0 ∨ 9 < name.length) :
    irc_connect name s = (PARAMETER_OUT_OF_RANGE, s) := by
  unfold irc_connect
  rw [if_pos h]

/-- C6 witness: the empty name and a 15 character name both fail with
PARAMETER_OUT_OF_RANGE and leave the transport state untouched. -/
theorem connect_rejects_bad_nickname_without_io_witness :
    irc_connect "" ⟨0, [], [], []⟩ = (PARAMETER_OUT_OF_RANGE, ⟨0, [], [], []⟩) ∧
    irc_connect "toolongnickname" ⟨0, [], [], []⟩ =
      (PARAMETER_OUT_OF_RANGE, ⟨0, [], [], []⟩) :=
  ⟨connect_rejects_bad_nickname_without_io "" _ (Or.inl (by decide)),
   connect_rejects_bad_nickname_without_io "toolongnickname" _
     (Or.inr (by decide))⟩

/-- C7: a successful irc_connect issues the transport open followed by
exactly one send, whose payload is the in-order concatenation of
PASS *\r\n, NICK <name>\r\n, USER <name> 8 * :<name>\r\n and
JOIN <lobby-channel>\r\n. -/
theorem connect_single_handshake_write (name : String) (s : NetState)
    (h1 : 1 ≤ name.length) (h9 : name.length ≤ 9)
    (hconn : s.connectRet = NO_ERROR) (hsend : s.sendRets = []) :
    (irc_connect name s).1 = NO_ERROR ∧
    (irc_connect name s).2.trace = s.trace ++
      [NetOp.conn,
       NetOp.send ("PASS *\r\n" ++ ("NICK " ++ name ++ "\r\n")
         ++ ("USER " ++ name ++ " 8 * :" ++ name ++ "\r\n")
         ++ ("JOIN " ++ LOBBY_CHANNEL ++ "\r\n"))] := by
  have hv : ¬ (name.length = 0 ∨ 9 < name.length) := by omega
  unfold irc_connect
  rw [if_neg hv]
  simp [network_connect, network_send, hconn, hsend, NO_ERROR]

/-- C7 witness: connect of alice on an all-success transport produces exactly
the open followed by the single batched handshake write. -/
theorem connect_single_handshake_write_witness :
    (irc_connect "alice" ⟨0, [], [], []⟩).2.trace =
      [NetOp.conn,
       NetOp.send "PASS *\r\nNICK alice\r\nUSER alice 8 * :alice\r\nJOIN #cruce-lobby\r\n"] := by
  have h := connect_single_handshake_write "alice" ⟨0, [], [], []⟩
      (by decide) (by decide) rfl rfl
  rw [h.2]
  decide

/-- C8: on every raw line that does not begin with a colon the parser model
returns the undefined behaviour marker — the C code leaves prefixEnd
uninitialised on that path and then applies the prefix offset arithmetic to
it, so the parse result is undefined; no no-prefix branch exists. -/
theorem parser_ub_on_unprefixed_line (str : List Char)
    (h : str.head? ≠ some ':') : getNextMessage str = ParseResult.ub := by
  unfold getNextMessage
  rw [if_pos h]

/-- C8 witness: a concrete unprefixed line parses to the undefined behaviour
marker. -/
theorem parser_ub_on_unprefixed_line_witness :
    getNextMessage "PING :server\n".data = ParseResult.ub :=
  parser_ub_on_unprefixed_line _ (by decide)

/-- C9 amended: irc_getNames fails (NULL) for the current room scope when no
room is joined; otherwise — for the lobby scope, and for the current room
scope with a room joined — it sends NAMES on the corresponding channel and
reads one line; when the response contains a colon it returns the text from
the first colon onwards — the colon included, as one raw string, not split
into tokens — and when the response contains no colon the C code calls
strlen on the NULL result of strchr, which is undefined behaviour, not a
ProtocolError. -/
theorem getNames_from_colon_behavior (room : Int) (s : NetState)
    (buffer : String)
    (hsr : s.sendRets = []) (hrd : s.reads = [(0, buffer)]) :
    (irc_getNames true (-1) s).1 = NamesResult.null ∧
    ((irc_getNames false room s).2.trace = s.trace ++
        [NetOp.send ("NAMES " ++ LOBBY_CHANNEL ++ "\r\n"), NetOp.readLine] ∧
      (∀ i, strchrIdx buffer ':' = some i →
        (irc_getNames false room s).1 =
          NamesResult.ok ((buffer.data.drop i).asString)) ∧
      (strchrIdx buffer ':' = none →
        (irc_getNames false room s).1 = NamesResult.ub)) ∧
    (room ≠ -1 →
      (irc_getNames true room s).2.trace = s.trace ++
        [NetOp.send ("NAMES " ++ roomName room ++ "\r\n"), NetOp.readLine] ∧
      (∀ i, strchrIdx buffer ':' = some i →
        (irc_getNames true room s).1 =
          NamesResult.ok ((buffer.data.drop i).asString)) ∧
      (strchrIdx buffer ':' = none →
        (irc_getNames true room s).1 = NamesResult.ub)) := by
  refine ⟨by simp [irc_getNames], ⟨?_, ?_, ?_⟩, ?_⟩
  · cases hci : strchrIdx buffer ':' <;>
      simp [irc_getNames, namesQuery, network_send, network_read, hsr, hrd,
        NO_ERROR, hci]
  · intro i hi
    simp [irc_getNames, namesQuery, network_send, network_read, hsr, hrd,
      NO_ERROR, hi]
  · intro h0
    simp [irc_getNames, namesQuery, network_send, network_read, hsr, hrd,
      NO_ERROR, h0]
  · intro hr
    refine ⟨?_, ?_, ?_⟩
    · cases hci : strchrIdx buffer ':' <;>
        simp [irc_getNames, namesQuery, network_send, network_read, hsr, hrd,
          NO_ERROR, hci, hr]
    · intro i hi
      simp [irc_getNames, namesQuery, network_send, network_read, hsr, hrd,
        NO_ERROR, hi, hr]
    · intro h0
      simp [irc_getNames, namesQuery, network_send, network_read, hsr, hrd,
        NO_ERROR, h0, hr]

/-- C9 witness: concrete instantiations for both scopes — the lobby query and
the current room query with room 7 joined both hand back the names string
starting at and including the colon. -/
theorem getNames_from_colon_behavior_witness :
    (irc_getNames false 7 ⟨0, [], [(0, "resp :alice bob")], []⟩).1 =
      NamesResult.ok ":alice bob" ∧
    (irc_getNames true 7 ⟨0, [], [(0, "resp :alice bob")], []⟩).1 =
      NamesResult.ok ":alice bob" := by
  have h := getNames_from_colon_behavior 7
      ⟨0, [], [(0, "resp :alice bob")], []⟩ "resp :alice bob" rfl rfl
  constructor
  · rw [h.2.1.2.1 5 (by decide)]
    decide
  · rw [(h.2.2 (by decide)).2.1 5 (by decide)]
    decide

/-- C9 counterexample: the value irc_getNames hands back on the response
"resp :alice bob" is the string ":alice bob", which still carries the colon
and is not the text after it; and on a response with no colon the result is
the undefined behaviour marker, not an error value. -/
theorem getNames_claim_counterexample :
    (irc_getNames false 0 ⟨0, [], [(0, "resp :alice bob")], []⟩).1 =
      NamesResult.ok ":alice bob" ∧
    ":alice bob" ≠ "alice bob" ∧
    (irc_getNames false 0 ⟨0, [], [(0, "no colon here")], []⟩).1 =
      NamesResult.ub := by
  decide

/-- C10: when the JOIN or PART send fails, irc_joinRoom and irc_leaveRoom
return the transport error code unchanged and leave currentRoom exactly as it
was before the call. -/
theorem join_leave_keep_room_on_send_failure (roomNumber room e : Int)
    (rest : List Int) (s : NetState)
    (h0 : 0 ≤ roomNumber) (h999 : roomNumber ≤ 999)
    (he : e ≠ NO_ERROR) (hs : s.sendRets = e :: rest) :
    ((irc_joinRoom roomNumber room s).1 = e ∧
      (irc_joinRoom roomNumber room s).2.1 = room) ∧
    (0 ≤ room →
      (irc_leaveRoom room s).1 = e ∧ (irc_leaveRoom room s).2.1 = room) := by
  have hv : ¬ (roomNumber < 0 ∨ 999 < roomNumber) := by omega
  constructor
  · unfold irc_joinRoom
    rw [if_neg hv]
    simp [network_send, hs, he]
  · intro hroom
    unfold irc_leaveRoom
    rw [if_neg (show ¬ room < 0 by omega)]
    simp [network_send, hs, he]

/-- C10 witness: with the transport failing the next send with -9, joining
room 7 from room 5 and leaving room 5 both return -9 and leave currentRoom at
5. -/
theorem join_leave_keep_room_on_send_failure_witness :
    ((irc_joinRoom 7 5 ⟨0, [-9], [], []⟩).1 = -9 ∧
      (irc_joinRoom 7 5 ⟨0, [-9], [], []⟩).2.1 = 5) ∧
    ((irc_leaveRoom 5 ⟨0, [-9], [], []⟩).1 = -9 ∧
      (irc_leaveRoom 5 ⟨0, [-9], [], []⟩).2.1 = 5) := by
  have h := join_leave_keep_room_on_send_failure 7 5 (-9) [] ⟨0, [-9], [], []⟩
      (by decide) (by decide) (by decide) rfl
  exact ⟨h.1, h.2 (by decide)⟩
